import Mathlib

/-!
Shallow embedding of the form lifecycle controller (`views/form`, the
`FormView` module) of the fxa content server.  Each method of the source
is translated into a pure Lean function; the sequential promise chains of
the submission pipeline are modelled as explicit state passing, and the
DOM field list is modelled as a list of field records carrying the
attributes the source reads (`type`, `required`, `value`, the HTML5
`validity` object, `name`/`id`, `data-novalue`, membership in the
excluded `#coppa` subtree).

Collaborator modules that are not part of the shown sources
(`lib/validate`, `lib/auth-errors`, the `allowOnlyOneSubmit` decorator,
and the BaseView error/success message helpers) are modelled from the
spec; their definitions say so in their doc comments.
-/

namespace FxaForm

/-- Symbolic validation error kinds of the AuthErrors taxonomy that the
FormView module uses. -/
inductive AuthError where
  | INVALID_EMAIL
  | EMAIL_REQUIRED
  | PASSWORD_TOO_SHORT
  | PASSWORD_REQUIRED
deriving DecidableEq, Repr

/-- Modelled from the spec: `lib/auth-errors` is not under src/; the spec
(section 6) requires only a lookup service mapping symbolic error kinds to
user-facing strings.  The concrete strings are arbitrary but distinct. -/
def AuthErrors.toMessage : AuthError → String
  | AuthError.INVALID_EMAIL => "Valid email required"
  | AuthError.EMAIL_REQUIRED => "Email required"
  | AuthError.PASSWORD_TOO_SHORT => "Must be at least 8 characters"
  | AuthError.PASSWORD_REQUIRED => "Password required"

/-- JS string truthiness: a string is truthy iff it is non-empty.  The
source tests this both as `value && ...` and as `value.length === 0`
(negated). -/
def strTruthy (s : String) : Bool :=
  ! s.data.isEmpty

/-- JS `$.trim` (jQuery is an external collaborator): strip leading and
trailing whitespace. -/
def jsTrim (s : String) : String :=
  String.mk
    (((s.data.dropWhile Char.isWhitespace).reverse.dropWhile
        Char.isWhitespace).reverse)

/-- Modelled from the spec: `lib/validate` is not under src/; the spec
(section 4.2) says an email is valid iff it is non-empty and passes an
email-format check.  The format check used here requires a single `@`
separating a non-empty local part from a non-empty domain containing a
dot, so that `a@b.com` passes and `not-an-email` and the empty string
fail, as in the spec scenarios. -/
def Validate.isEmailValid (s : String) : Bool :=
  let cs := s.data
  let at64 := Char.ofNat 64
  (cs.count at64 == 1) &&
  (match cs.dropWhile (fun c => c != at64) with
   | _ :: domain =>
       ! (cs.takeWhile (fun c => c != at64)).isEmpty &&
       ! domain.isEmpty && domain.contains (Char.ofNat 46)
   | [] => false)

/-- Modelled from the spec: `lib/validate` is not under src/; the spec
(section 4.2, Scenario C) requires a non-empty minimum-length check with
a length-3 password below the minimum; fxa's minimum password length is
8 characters. -/
def Validate.isPasswordValid (s : String) : Bool :=
  s.data.length ≥ 8

/-- One form element, carrying exactly the DOM attributes the FormView
methods read. -/
structure Field where
  /-- Tag name: `input`, `textarea` or `select`. -/
  tag : String
  /-- The `type` attribute, absent on some elements. -/
  typeAttr : Option String
  /-- Whether the element has the `password` CSS class. -/
  hasPasswordClass : Bool
  /-- Whether the `required` attribute is present. -/
  required : Bool
  /-- The HTML5 constraint-validation verdict `el.validity.valid`,
  `none` when the browser offers no `validity` object. -/
  validity : Option Bool
  /-- The current raw value of the element. -/
  value : String
  /-- The `name` attribute, when present. -/
  nameAttr : Option String
  /-- The `id` attribute, when present. -/
  idAttr : Option String
  /-- Whether the `data-novalue` attribute is present. -/
  novalue : Bool
  /-- Whether the element lives inside the excluded `#coppa` subtree. -/
  inCoppa : Bool
deriving DecidableEq, Repr

/-- Source `getElementType`: the `type` attribute, except that a `text`
field with the `password` class is treated as a password. -/
def getElementType (el : Field) : Option String :=
  if el.typeAttr = some ("text") && el.hasPasswordClass then some ("password")
  else el.typeAttr

/-- Source `getElementValue`: the raw value, trimmed when it is truthy
(non-empty) and the element type is `email`. -/
def getElementValue (el : Field) : String :=
  if strTruthy el.value && getElementType el = some ("email") then
    jsTrim el.value
  else el.value

/-- Source `validateEmail`. -/
def validateEmail (el : Field) : Bool :=
  Validate.isEmailValid (getElementValue el)

/-- Source `validatePassword`. -/
def validatePassword (el : Field) : Bool :=
  Validate.isPasswordValid (getElementValue el)

/-- Source `validateInput`: fail when required and empty, otherwise defer
to HTML5 constraint validation when the browser provides it, else pass. -/
def validateInput (el : Field) : Bool :=
  if el.required && ! strTruthy (getElementValue el) then false
  else
    match el.validity with
    | some v => v
    | none => true

/-- Source `isElementValid`: dispatch on the element type. -/
def isElementValid (el : Field) : Bool :=
  if getElementType el = some ("email") then validateEmail el
  else if getElementType el = some ("password") then validatePassword el
  else validateInput el

/-- Full controller state: the rendered fields, the overridable predicate
hooks (as their boolean results), and the mutable flags of the instance
(`_isFormEnabled`, `_isSubmitting`, `_isHalted`, error/success message
visibility, `_previousFormValues`). -/
structure FormState where
  fields : List Field
  /-- Result of the overridable `isValidStart` hook (default true). -/
  isValidStart : Bool
  /-- Result of the overridable `isValidEnd` hook (default true). -/
  isValidEnd : Bool
  /-- Truthiness of the overridable `showValidationErrorsStart` hook
  result (default falsy). -/
  showValidationErrorsStart : Bool
  isFormEnabled : Bool
  isSubmitting : Bool
  isHalted : Bool
  /-- Modelled from the spec: BaseView `isErrorVisible`/`hideError` are
  not under src/; whether an error message is currently visible. -/
  errorVisible : Bool
  /-- Modelled from the spec: BaseView `hideSuccess` is not under src/;
  whether a success message is currently visible. -/
  successVisible : Bool
  previousFormValues : Option (List (String × String))
deriving DecidableEq, Repr

/-- Replace the `isFormEnabled` flag. -/
def setFormEnabled (s : FormState) (b : Bool) : FormState :=
  ⟨s.fields, s.isValidStart, s.isValidEnd, s.showValidationErrorsStart,
   b, s.isSubmitting, s.isHalted, s.errorVisible, s.successVisible,
   s.previousFormValues⟩

/-- Replace the `isSubmitting` flag. -/
def setSubmitting (s : FormState) (b : Bool) : FormState :=
  ⟨s.fields, s.isValidStart, s.isValidEnd, s.showValidationErrorsStart,
   s.isFormEnabled, b, s.isHalted, s.errorVisible, s.successVisible,
   s.previousFormValues⟩

/-- Replace the `isHalted` flag. -/
def setHalted (s : FormState) (b : Bool) : FormState :=
  ⟨s.fields, s.isValidStart, s.isValidEnd, s.showValidationErrorsStart,
   s.isFormEnabled, s.isSubmitting, b, s.errorVisible, s.successVisible,
   s.previousFormValues⟩

/-- Replace the error-message visibility flag. -/
def setErrorVisible (s : FormState) (b : Bool) : FormState :=
  ⟨s.fields, s.isValidStart, s.isValidEnd, s.showValidationErrorsStart,
   s.isFormEnabled, s.isSubmitting, s.isHalted, b, s.successVisible,
   s.previousFormValues⟩

/-- Replace the success-message visibility flag. -/
def setSuccessVisible (s : FormState) (b : Bool) : FormState :=
  ⟨s.fields, s.isValidStart, s.isValidEnd, s.showValidationErrorsStart,
   s.isFormEnabled, s.isSubmitting, s.isHalted, s.errorVisible, b,
   s.previousFormValues⟩

/-- Replace the `_previousFormValues` baseline. -/
def setPrevValues (s : FormState) (v : Option (List (String × String))) : FormState :=
  ⟨s.fields, s.isValidStart, s.isValidEnd, s.showValidationErrorsStart,
   s.isFormEnabled, s.isSubmitting, s.isHalted, s.errorVisible,
   s.successVisible, v⟩

/-- Source `disableForm` (flag part; the CSS class is presentation). -/
def disableFormS (s : FormState) : FormState := setFormEnabled s false

/-- Source `enableForm` (flag part). -/
def enableFormS (s : FormState) : FormState := setFormEnabled s true

/-- Source `halt`: disables the DOM elements and sets `_isHalted`. -/
def haltS (s : FormState) : FormState := setHalted s true

/-- Modelled from the spec: BaseView `hideError` is not under src/; it
hides any visible error message. -/
def hideErrorS (s : FormState) : FormState := setErrorVisible s false

/-- Modelled from the spec: BaseView `hideSuccess` is not under src/; it
hides any visible success message. -/
def hideSuccessS (s : FormState) : FormState := setSuccessVisible s false

/-- Modelled from the spec: BaseView `displayError` is not under src/; it
routes a submission failure to the error display channel, making an
error message visible. -/
def displayErrorS (s : FormState) : FormState := setErrorVisible s true

/-- The field list walked by `isValid` and `showValidationErrors`: the
source selects `this.$('input').not('#coppa input')`, i.e. `input`
elements outside the `#coppa` subtree, in declaration order. -/
def scopedInputs (s : FormState) : List Field :=
  s.fields.filter (fun el => el.tag == "input" && ! el.inCoppa)

/-- Source `isValid`: the `isValidStart` hook, then every in-scope input
element (the source loop returns false at the first invalid element,
which on booleans is the same as requiring all elements valid), then the
`isValidEnd` hook. -/
def isValid (s : FormState) : Bool :=
  if ! s.isValidStart then false
  else if ! (scopedInputs s).all (fun el => isElementValid el) then false
  else s.isValidEnd

/-- Source `showEmailValidationError`, decision part: `INVALID_EMAIL`
when the (effective) value is truthy, `EMAIL_REQUIRED` when empty. -/
def showEmailValidationErrorKind (el : Field) : AuthError :=
  if strTruthy (getElementValue el) then AuthError.INVALID_EMAIL
  else AuthError.EMAIL_REQUIRED

/-- Source `showPasswordValidationError`, decision part:
`PASSWORD_TOO_SHORT` when the value is truthy, `PASSWORD_REQUIRED`
when empty. -/
def showPasswordValidationErrorKind (el : Field) : AuthError :=
  if strTruthy (getElementValue el) then AuthError.PASSWORD_TOO_SHORT
  else AuthError.PASSWORD_REQUIRED

/-- The first in-scope invalid input element, in declaration order (the
element at which the loops of `isValid` and `showValidationErrors`
stop). -/
def firstInvalid (s : FormState) : Option Field :=
  (scopedInputs s).find? (fun el => ! isElementValid el)

/-- Source `showValidationErrors`, decision part: which tooltip (field
and typed error) the walk renders.  After the `showValidationErrorsStart`
hook (truthy return suppresses the generic display), the walk stops at
the first invalid in-scope input; an email or password field gets a typed
tooltip, any other field gets nothing (`// only one message at a time.
return;`), and when no field is invalid `showValidationErrorsEnd` (a
default no-op) runs and nothing is rendered. -/
def showValidationErrors (s : FormState) : Option (Field × AuthError) :=
  if s.showValidationErrorsStart then none
  else
    match firstInvalid s with
    | some el =>
        if getElementType el = some ("email") then
          some (el, showEmailValidationErrorKind el)
        else if getElementType el = some ("password") then
          some (el, showPasswordValidationErrorKind el)
        else none
    | none => none

/-- The return value of `showValidationErrors`: the message of the
tooltip it rendered (the return value of `showValidationError`), or
undefined when no tooltip was rendered. -/
def showValidationErrorsMsg (s : FormState) : Option String :=
  (showValidationErrors s).map (fun p => AuthErrors.toMessage p.2)

/-- Key under which an element's value is stored by `getFormValues`:
`el.attr('name') || el.attr('id')`, with a JS-truthiness fallback (an
absent attribute stringifies to `undefined` as a property key). -/
def idKeyOf (el : Field) : String :=
  match el.idAttr with
  | some i => i
  | none => "undefined"

/-- JS `el.attr('name') || el.attr('id')` as a property key. -/
def elementKey (el : Field) : String :=
  match el.nameAttr with
  | some n => if strTruthy n then n else idKeyOf el
  | none => idKeyOf el

/-- JS object property assignment `values[name] = v` on an association
list: update the existing key in place, or append a new one. -/
def objSet : List (String × String) → String → String → List (String × String)
  | [], k, v => [(k, v)]
  | kv :: rest, k, v =>
      if kv.1 == k then (kv.1, v) :: rest else kv :: objSet rest k v

/-- JS object property lookup. -/
def objGet : List (String × String) → String → Option String
  | [], _ => none
  | kv :: rest, k => if kv.1 == k then some kv.2 else objGet rest k

/-- Modelled from the spec: underscore's `_.isEqual` is not under src/;
deep structural equality of two snapshot objects (same keys with the
same values, insertion order irrelevant). -/
def objEq (a b : List (String × String)) : Bool :=
  a.all (fun kv => objGet b kv.1 == some kv.2) &&
  b.all (fun kv => objGet a kv.1 == some kv.2)

/-- JS `_.isEqual(oldValues, newValues)` where `oldValues` may still be
`undefined` (first run) and `newValues` is always an object: `undefined`
is never equal to an object. -/
def isEqualJs : Option (List (String × String)) → List (String × String) → Bool
  | none, _ => false
  | some o, n => objEq o n

/-- One step of the `getFormValues` loop body. -/
def formValuesStep (values : List (String × String)) (el : Field) :
    List (String × String) :=
  if el.novalue then values
  else objSet values (elementKey el) (getElementValue el)

/-- Source `getFormValues`: walk `input,textarea,select` elements in
declaration order (no `#coppa` exclusion here), skipping elements with
`data-novalue`, storing each value under its name-or-id key. -/
def getFormValues (s : FormState) : List (String × String) :=
  (s.fields.filter (fun el =>
      el.tag == "input" || el.tag == "textarea" || el.tag == "select")).foldl
    formValuesStep []

/-- Source `detectFormValueChanges`: the new snapshot when it differs
(deep) from the last committed one, else null. -/
def detectFormValueChanges (s : FormState) : Option (List (String × String)) :=
  if ! isEqualJs s.previousFormValues (getFormValues s) then
    some (getFormValues s)
  else none

/-- Source `updateFormValueChanges`: detect, and commit the new snapshot
as baseline when a change was detected; returns the detection result. -/
def updateFormValueChanges (s : FormState) :
    FormState × Option (List (String × String)) :=
  match detectFormValueChanges s with
  | some nv => (setPrevValues s (some nv), some nv)
  | none => (s, none)

/-- Source `enableSubmitIfValid`: bail out while submitting or halted;
otherwise hide the error and success messages, then enable the form
exactly when `isValid()` holds. -/
def enableSubmitIfValid (s : FormState) : FormState :=
  if s.isSubmitting || s.isHalted then s
  else
    let s1 := hideSuccessS (hideErrorS s)
    if isValid s1 then enableFormS s1 else disableFormS s1

/-- JavaScript values flowing through the promise chain: `undefined`, the
validation message string thrown by `validateAndSubmit`, an error object
(tagged by its message), or a submit result object with a `halt`
property. -/
inductive JsValue where
  | undef
  | str (s : String)
  | errObj (e : String)
  | res (halt : Bool)
deriving DecidableEq, Repr

/-- JS truthiness of `result && result.halt` in the default
`afterSubmit`. -/
def resultHalt : JsValue → Bool
  | JsValue.res h => h
  | _ => false

/-- The rejection value of `validateAndSubmit` on a validation failure:
the return value of `showValidationErrors` (the displayed message, or
undefined when nothing was displayed). -/
def jsOfMsg : Option String → JsValue
  | some m => JsValue.str m
  | none => JsValue.undef

/-- Observable steps of one controller call, in order of occurrence:
signals (`submitStart`), hook invocations, the tooltip render and the
error display. -/
inductive Event where
  | submitStart
  | logSubmit
  | tooltipShown (elKey : String) (k : AuthError) (msg : String)
  | beforeSubmitCalled
  | submitCalled
  | displayErrorCalled (e : JsValue)
  | afterSubmitCalled (r : JsValue)
deriving DecidableEq, Repr

/-- Behaviour of the overridable `beforeSubmit` hook: the default
(disable the form, resolve undefined), an override resolving a value
(`retFalse` true means it resolves to exactly `false`), or an override
that throws or rejects. -/
inductive BeforeSubmitB where
  | dflt
  | retVal (retFalse : Bool)
  | raise (e : String)
deriving DecidableEq, Repr

/-- Behaviour of the required `submit` override: resolve with a value, or
throw or reject. -/
inductive SubmitB where
  | resolve (v : JsValue)
  | raise (e : String)
deriving DecidableEq, Repr

/-- Source default `afterSubmit(result)`: if `result && result.halt`,
halt; else re-enable the form when no error message is visible; resolve
with the result. -/
def afterSubmitRun (s : FormState) (r : JsValue) :
    FormState × List Event × Except JsValue JsValue :=
  (if resultHalt r then haltS s
   else if ! s.errorVisible then enableFormS s
   else s,
   [Event.afterSubmitCalled r], Except.ok r)

/-- The tail of the `_submitForm` chain after `beforeSubmit` has resolved
with a value: run `submit` unless that value was exactly `false`; an
error from `submit` is displayed via `displayError` and re-thrown,
bypassing `afterSubmit`; otherwise `afterSubmit` runs on the chain
value. -/
def runSubmitStage (s : FormState) (retFalse : Bool) (sub : SubmitB) :
    FormState × List Event × Except JsValue JsValue :=
  if retFalse then
    let r := afterSubmitRun s JsValue.undef
    (r.1, Event.beforeSubmitCalled :: r.2.1, r.2.2)
  else
    match sub with
    | SubmitB.resolve v =>
        let r := afterSubmitRun s v
        (r.1, Event.beforeSubmitCalled :: Event.submitCalled :: r.2.1, r.2.2)
    | SubmitB.raise e =>
        let s1 := displayErrorS s
        (s1,
         [Event.beforeSubmitCalled, Event.submitCalled,
          Event.displayErrorCalled (JsValue.errObj e)],
         Except.error (JsValue.errObj e))

/-- Source `_submitForm`: the `beforeSubmit → submit → afterSubmit`
promise chain.  The `notifyDelayedRequest` and
`showButtonProgressIndicator` decorators are side-channel
instrumentation (spec section 4.3) and are not modelled.  An error from
`beforeSubmit` is displayed via `displayError` and re-thrown, bypassing
both `submit` and `afterSubmit`. -/
def submitFormRun (bs : BeforeSubmitB) (sub : SubmitB) (s : FormState) :
    FormState × List Event × Except JsValue JsValue :=
  match bs with
  | BeforeSubmitB.dflt => runSubmitStage (disableFormS s) false sub
  | BeforeSubmitB.retVal rf => runSubmitStage s rf sub
  | BeforeSubmitB.raise e =>
      let s1 := displayErrorS s
      (s1,
       [Event.beforeSubmitCalled, Event.displayErrorCalled (JsValue.errObj e)],
       Except.error (JsValue.errObj e))

/-- Source `showValidationErrors` as a state transformer: hide any
visible error, then render the (at most one) tooltip decided by the walk
and return its message.  (The walk itself never reads the
error-visibility flag, so it is taken on the incoming state.) -/
def showValidationErrorsRun (s : FormState) :
    FormState × List Event × Option String :=
  match showValidationErrors s with
  | some p =>
      (hideErrorS s,
       [Event.tooltipShown (elementKey p.1) p.2 (AuthErrors.toMessage p.2)],
       some (AuthErrors.toMessage p.2))
  | none => (hideErrorS s, [], none)

/-- Body of `validateAndSubmit` (inside the single-flight decorator):
trigger `submitStart`; no-op when halted; on invalid, run the error
display and reject with its return value; quiet no-op when the form is
disabled (the enablement check deliberately runs after validation); else
log and run the `_submitForm` chain. -/
def validateAndSubmitBody (bs : BeforeSubmitB) (sub : SubmitB) (s : FormState) :
    FormState × List Event × Except JsValue JsValue :=
  if s.isHalted then (s, [Event.submitStart], Except.ok JsValue.undef)
  else if ! isValid s then
    let r := showValidationErrorsRun s
    (r.1, Event.submitStart :: r.2.1, Except.error (jsOfMsg r.2.2))
  else if ! s.isFormEnabled then (s, [Event.submitStart], Except.ok JsValue.undef)
  else
    let r := submitFormRun bs sub s
    (r.1, Event.submitStart :: Event.logSubmit :: r.2.1, r.2.2)

/-- Source `validateAndSubmit`.  Modelled from the spec: the
`allowOnlyOneSubmit` decorator (views/decorators) is not under src/; per
the spec it drops a call made while a submission is in flight silently
(no state transition, no error), and otherwise sets the
submission-in-progress flag for the duration of the call and clears it
when the chain settles. -/
def validateAndSubmitRun (bs : BeforeSubmitB) (sub : SubmitB) (s : FormState) :
    FormState × List Event × Except JsValue JsValue :=
  if s.isSubmitting then (s, [], Except.ok JsValue.undef)
  else
    let r := validateAndSubmitBody bs sub (setSubmitting s true)
    (setSubmitting r.1 false, r.2.1, r.2.2)

/-- The state-mutating operations of the FormView module, for stating
frame properties over every operation. -/
inductive Op where
  | validateAndSubmitOp (bs : BeforeSubmitB) (sub : SubmitB)
  | submitFormOp (bs : BeforeSubmitB) (sub : SubmitB)
  | showValidationErrorsOp
  | enableSubmitIfValidOp
  | updateFormValueChangesOp
  | enableFormOp
  | disableFormOp
  | hideErrorOp
  | hideSuccessOp
  | displayErrorOp
  | afterSubmitOp (r : JsValue)
  | haltOp

/-- Run one FormView operation for its state effect. -/
def runOp : Op → FormState → FormState
  | Op.validateAndSubmitOp bs sub, s => (validateAndSubmitRun bs sub s).1
  | Op.submitFormOp bs sub, s => (submitFormRun bs sub s).1
  | Op.showValidationErrorsOp, s => (showValidationErrorsRun s).1
  | Op.enableSubmitIfValidOp, s => enableSubmitIfValid s
  | Op.updateFormValueChangesOp, s => (updateFormValueChanges s).1
  | Op.enableFormOp, s => enableFormS s
  | Op.disableFormOp, s => disableFormS s
  | Op.hideErrorOp, s => hideErrorS s
  | Op.hideSuccessOp, s => hideSuccessS s
  | Op.displayErrorOp, s => displayErrorS s
  | Op.afterSubmitOp r, s => (afterSubmitRun s r).1
  | Op.haltOp, s => haltS s

/-- Setting the submitting flag twice keeps only the last value. -/
lemma setSubmitting_setSubmitting (s : FormState) (a b : Bool) :
    setSubmitting (setSubmitting s a) b = setSubmitting s b := rfl

/-- Clearing the submitting flag on a state in which it is already clear
is the identity. -/
lemma setSubmitting_self (s : FormState) (h : s.isSubmitting = false) :
    setSubmitting s false = s := by
  cases s
  simp_all [setSubmitting]

/-- Claim-side per-field rule, following the words of the spec (sections
4.2 and 8): an email field must be non-empty and pass the email format
check, a password field must be non-empty and pass the password check,
and a generic field must be non-empty when marked required and
additionally pass native browser constraint validation when it is
available. -/
def specFieldRule (el : Field) : Bool :=
  if getElementType el = some ("email") then
    strTruthy (getElementValue el) && Validate.isEmailValid (getElementValue el)
  else if getElementType el = some ("password") then
    strTruthy (getElementValue el) &&
      Validate.isPasswordValid (getElementValue el)
  else
    (! el.required || strTruthy (getElementValue el)) && el.validity.getD true

/-- A string passing the email check is necessarily non-empty, so the
conjunct is redundant. -/
lemma isEmailValid_truthy (v : String) :
    (strTruthy v && Validate.isEmailValid v) = Validate.isEmailValid v := by
  cases hd : v.data with
  | nil => simp [strTruthy, Validate.isEmailValid, hd]
  | cons c cs => simp [strTruthy, hd]

/-- A string passing the password check is necessarily non-empty, so the
conjunct is redundant. -/
lemma isPasswordValid_truthy (v : String) :
    (strTruthy v && Validate.isPasswordValid v) = Validate.isPasswordValid v := by
  cases hd : v.data with
  | nil => simp [strTruthy, Validate.isPasswordValid, hd]
  | cons c cs => simp [strTruthy, hd]

/-- The source per-element check agrees with the spec-side per-field
rule. -/
lemma isElementValid_eq_specFieldRule (el : Field) :
    isElementValid el = specFieldRule el := by
  unfold isElementValid specFieldRule validateEmail validatePassword validateInput
  by_cases he : getElementType el = some ("email")
  · simp [he, isEmailValid_truthy]
  · by_cases hp : getElementType el = some ("password")
    · simp [he, hp, isPasswordValid_truthy]
    · simp only [he, hp, if_false]
      cases hr : el.required <;>
        cases hv : strTruthy (getElementValue el) <;>
          cases hval : el.validity <;> simp [hr, hv, hval]

/-- Congruence of the element walk under the rule equivalence. -/
lemma all_isElementValid_eq (l : List Field) :
    l.all (fun el => isElementValid el) = l.all (fun el => specFieldRule el) := by
  induction l with
  | nil => rfl
  | cons x xs ih => simp [List.all_cons, isElementValid_eq_specFieldRule, ih]

/-- An email field with no `name` attribute used in concrete claim
instances below. -/
def c3EmailField : Field :=
  ⟨"input", some ("email"), false, true, none, "a@b.com", some ("em"),
   none, false, false⟩

/-- An invalid required field inside the excluded `#coppa` subtree. -/
def c3CoppaField : Field :=
  ⟨"input", some ("text"), false, true, none, "", none, none, false, true⟩

/-- A form with one valid email field plus an invalid `#coppa` field. -/
def c3Form : FormState :=
  ⟨[c3EmailField, c3CoppaField], true, true, false, true, false, false,
   false, false, none⟩

/-- The same form without the `#coppa` field. -/
def c3FormNoCoppa : FormState :=
  ⟨[c3EmailField], true, true, false, true, false, false, false, false,
   none⟩

/-- C3: `isValid()` returns false iff the `isValidStart` hook fails, or
some non-excluded input field fails its kind-specific rule (email:
non-empty and valid format; password: non-empty and valid; generic:
non-empty when required, plus native constraint validity when
available), or the `isValidEnd` hook fails; and any two states with the
same non-coppa input fields and the same hook results have the same
validity, so `#coppa`-subtree fields never affect the result.  `isValid`
is a pure predicate by construction (a function of the state with no
state output), so it displays nothing and has no side effects. -/
theorem isValid_characterization (s : FormState) :
    (isValid s =
      (s.isValidStart && (scopedInputs s).all (fun el => specFieldRule el) &&
        s.isValidEnd)) ∧
    (∀ t : FormState, scopedInputs t = scopedInputs s →
      t.isValidStart = s.isValidStart → t.isValidEnd = s.isValidEnd →
      isValid t = isValid s) := by
  constructor
  · unfold isValid
    rw [all_isElementValid_eq]
    cases s.isValidStart <;>
      cases hall : (scopedInputs s).all (fun el => specFieldRule el) <;>
        simp [hall]
  · intro t h1 h2 h3
    unfold isValid
    rw [h1, h2, h3]

/-- Witness for C3: a concrete form whose `#coppa` field is invalid is
still valid, and removing the `#coppa` field does not change the
verdict. -/
theorem isValid_characterization_witness :
    isValid c3FormNoCoppa = isValid c3Form ∧ isValid c3Form = true ∧
      isElementValid c3CoppaField = false :=
  ⟨(isValid_characterization c3Form).2 c3FormNoCoppa (by decide) (by decide)
      (by decide),
   by decide, by decide⟩

/-- Scenario A: an empty required text field declared before an email
field holding `a@b.com`. -/
def scenarioAReqField : Field :=
  ⟨"input", some ("text"), false, true, none, "", some ("age"), none,
   false, false⟩

/-- Scenario A: the email field holding `a@b.com`. -/
def scenarioAEmailField : Field :=
  ⟨"input", some ("email"), false, true, none, "a@b.com", some ("em"),
   none, false, false⟩

/-- Scenario A form: required text field first, email field second. -/
def scenarioAForm : FormState :=
  ⟨[scenarioAReqField, scenarioAEmailField], true, true, false, true,
   false, false, false, false, none⟩

/-- C2 (amended): `showValidationErrors` walks the non-coppa input
fields in declaration order and stops at the first invalid one; it
renders a tooltip only when that field is an email or password field
(with the typed error of the matching kind), renders nothing for a
generic field (whose display is left to the
`showValidationErrorsStart`/`End` hooks), renders nothing when every
field is valid, and renders at most one tooltip per pass; in Scenario A
the walk stops at the empty required text field and the email field is
never reported (no tooltip at all is rendered, since the stopping field
is generic). -/
theorem showValidationErrors_walk (f : FormState)
    (hs : f.showValidationErrorsStart = false) :
    (∀ el k, showValidationErrors f = some (el, k) → firstInvalid f = some el) ∧
    (∀ el, firstInvalid f = some el →
      showValidationErrors f =
        (if getElementType el = some ("email") then
           some (el, showEmailValidationErrorKind el)
         else if getElementType el = some ("password") then
           some (el, showPasswordValidationErrorKind el)
         else none)) ∧
    (firstInvalid f = none → showValidationErrors f = none) ∧
    (showValidationErrorsRun f).2.1.length ≤ 1 ∧
    (firstInvalid scenarioAForm = some scenarioAReqField ∧
      isValid scenarioAForm = false ∧
      showValidationErrors scenarioAForm = none) := by
  refine ⟨?_, ?_, ?_, ?_, by decide, by decide, by decide⟩
  · intro el k h
    unfold showValidationErrors at h
    rw [hs] at h
    simp only [Bool.false_eq_true, if_false] at h
    cases hf : firstInvalid f with
    | none => rw [hf] at h; simp at h
    | some el2 =>
        rw [hf] at h
        simp only [] at h
        by_cases he : getElementType el2 = some ("email")
        · simp [he] at h; rw [h.1]
        · by_cases hp : getElementType el2 = some ("password")
          · simp [he, hp] at h; rw [h.1]
          · simp [he, hp] at h
  · intro el h
    unfold showValidationErrors
    rw [hs, h]
    simp
  · intro h
    unfold showValidationErrors
    rw [hs, h]
    simp
  · unfold showValidationErrorsRun
    cases hm : showValidationErrors f <;> simp [hm]

/-- Witness for C2 (amended): on a form whose first and only field is an
invalid email field, the walk renders the typed `INVALID_EMAIL`
tooltip. -/
theorem showValidationErrors_walk_witness :
    showValidationErrors
        ⟨[⟨"input", some ("email"), false, true, none, "not-an-email",
           some ("em"), none, false, false⟩],
         true, true, false, true, false, false, false, false, none⟩ =
      some (⟨"input", some ("email"), false, true, none, "not-an-email",
             some ("em"), none, false, false⟩,
            AuthError.INVALID_EMAIL) := by
  have h :=
    (showValidationErrors_walk
        ⟨[⟨"input", some ("email"), false, true, none, "not-an-email",
           some ("em"), none, false, false⟩],
         true, true, false, true, false, false, false, false, none⟩
        (by decide)).2.1
      ⟨"input", some ("email"), false, true, none, "not-an-email",
       some ("em"), none, false, false⟩ (by decide)
  rw [h]
  decide

/-- The field of the C2 counterexample: a generic required text field
with an empty value, hence invalid. -/
def c2CexField : Field :=
  ⟨"input", some ("text"), false, true, none, "", some ("req"), none,
   false, false⟩

/-- The form of the C2 counterexample. -/
def c2CexForm : FormState :=
  ⟨[c2CexField], true, true, false, true, false, false, false, false,
   none⟩

/-- Counterexample to C2 as stated: on a form whose first (and only)
invalid in-scope field is a generic field, `showValidationErrors`
renders no tooltip at all — not one tooltip carrying a generic
validation error — and returns undefined. -/
theorem showValidationErrors_generic_counterexample :
    isElementValid c2CexField = false ∧
    scopedInputs c2CexForm = [c2CexField] ∧
    showValidationErrors c2CexForm = none ∧
    (showValidationErrorsRun c2CexForm).2.1 = [] ∧
    showValidationErrorsMsg c2CexForm = none := by
  refine ⟨by decide, by decide, by decide, by decide, by decide⟩

/-- C4: for an invalid email field reached first by the error-display
walk, the displayed error kind is `INVALID_EMAIL` when the field's
(effective) value is non-empty and `EMAIL_REQUIRED` when it is empty;
for an invalid password field, `showPasswordValidationError` yields
`PASSWORD_TOO_SHORT` when the value is non-empty and `PASSWORD_REQUIRED`
when it is empty; and a length-3 password is indeed below the minimum
while `not-an-email` indeed fails the email check. -/
theorem error_kind_selection (f : FormState) (el : Field)
    (hs : f.showValidationErrorsStart = false)
    (h : firstInvalid f = some el) :
    (getElementType el = some ("email") →
      showValidationErrors f =
        some (el,
          if strTruthy (getElementValue el) then AuthError.INVALID_EMAIL
          else AuthError.EMAIL_REQUIRED)) ∧
    (getElementType el = some ("password") →
      showValidationErrors f =
        some (el,
          if strTruthy (getElementValue el) then AuthError.PASSWORD_TOO_SHORT
          else AuthError.PASSWORD_REQUIRED)) ∧
    Validate.isPasswordValid ("abc") = false ∧
    Validate.isEmailValid ("not-an-email") = false := by
  refine ⟨?_, ?_, by decide, by decide⟩
  · intro he
    unfold showValidationErrors
    rw [hs, h]
    simp [he, showEmailValidationErrorKind]
  · intro hp
    unfold showValidationErrors
    rw [hs, h]
    have he : ¬ getElementType el = some ("email") := by
      rw [hp]; decide
    simp [he, hp, showPasswordValidationErrorKind]

/-- A password field holding a length-3 value. -/
def c4PasswordField : Field :=
  ⟨"input", some ("password"), false, true, none, "abc", some ("pw"),
   none, false, false⟩

/-- A form holding only the length-3 password field. -/
def c4PasswordForm : FormState :=
  ⟨[c4PasswordField], true, true, false, true, false, false, false,
   false, none⟩

/-- Witness for C4: Scenario C realized — the form with the length-3
password displays `PASSWORD_TOO_SHORT`. -/
theorem error_kind_selection_witness :
    showValidationErrors c4PasswordForm =
      some (c4PasswordField, AuthError.PASSWORD_TOO_SHORT) := by
  have h :=
    (error_kind_selection c4PasswordForm c4PasswordField (by decide)
        (by decide)).2.1 (by decide)
  rw [h]
  decide

/-- The state left by the error-display pass is the input state with any
visible error hidden (tooltips are separate child views, not the error
message). -/
lemma showRun_state (s : FormState) :
    (showValidationErrorsRun s).1 = hideErrorS s := by
  unfold showValidationErrorsRun
  cases hm : showValidationErrors s <;> simp [hm]

/-- The return value of the error-display pass is the message of the
rendered tooltip, when there is one. -/
lemma showRun_msg_eq (s : FormState) :
    (showValidationErrorsRun s).2.2 = showValidationErrorsMsg s := by
  unfold showValidationErrorsRun showValidationErrorsMsg
  cases hm : showValidationErrors s <;> simp [hm]

/-- States with the same walk verdict have the same error-display
events and return value. -/
lemma showRun_congr (s t : FormState)
    (h : showValidationErrors s = showValidationErrors t) :
    (showValidationErrorsRun s).2.1 = (showValidationErrorsRun t).2.1 ∧
    (showValidationErrorsRun s).2.2 = (showValidationErrorsRun t).2.2 := by
  unfold showValidationErrorsRun
  rw [h]
  cases hm : showValidationErrors t <;> simp [hm]

/-- The error-display pass never invokes the submit hook. -/
lemma submitCalled_not_mem_showRun (s : FormState) :
    Event.submitCalled ∉ (showValidationErrorsRun s).2.1 := by
  unfold showValidationErrorsRun
  cases hm : showValidationErrors s <;> simp [hm]

/-- Behaviour of `validateAndSubmit` on an invalid, non-halted, idle
form: hide any visible error, render the walk's tooltip, reject with the
walk's return value; the submit chain never starts. -/
lemma validateAndSubmit_invalid (bs : BeforeSubmitB) (sub : SubmitB)
    (s : FormState) (hv : isValid s = false) (hh : s.isHalted = false)
    (hs : s.isSubmitting = false) :
    validateAndSubmitRun bs sub s =
      (hideErrorS s,
       Event.submitStart :: (showValidationErrorsRun s).2.1,
       Except.error (jsOfMsg (showValidationErrorsMsg s))) := by
  have h1 : (setSubmitting s true).isHalted = false := hh
  have h2 : isValid (setSubmitting s true) = false := hv
  unfold validateAndSubmitRun validateAndSubmitBody
  simp only [hs, h1, h2, Bool.false_eq_true, if_false, Bool.not_false,
    if_true, Prod.mk.injEq]
  have hcg := showRun_congr (setSubmitting s true) s rfl
  refine ⟨?_, ?_, ?_⟩
  · rw [showRun_state]
    rw [show setSubmitting (hideErrorS (setSubmitting s true)) false =
          hideErrorS (setSubmitting s false) from rfl]
    rw [setSubmitting_self s hs]
  · rw [hcg.1]
  · rw [hcg.2, showRun_msg_eq]

/-- C1: on every form whose `isValid()` is false and that is not halted
(and not mid-submission, otherwise the call is dropped by the
single-flight decorator), `validateAndSubmit` invokes the error-display
routine (its tooltip render is exactly the display pass's), rejects with
exactly the value returned by `showValidationErrors` — so whenever a
message was displayed, the rejection value is that exact message — and
the submit hook is never invoked. -/
theorem validateAndSubmit_invalid_rejects (bs : BeforeSubmitB)
    (sub : SubmitB) (s : FormState) (hv : isValid s = false)
    (hh : s.isHalted = false) (hs : s.isSubmitting = false) :
    (validateAndSubmitRun bs sub s).2.2 =
      Except.error (jsOfMsg (showValidationErrorsMsg s)) ∧
    (∀ m, showValidationErrorsMsg s = some m →
      (validateAndSubmitRun bs sub s).2.2 = Except.error (JsValue.str m)) ∧
    Event.submitCalled ∉ (validateAndSubmitRun bs sub s).2.1 ∧
    (validateAndSubmitRun bs sub s).2.1 =
      Event.submitStart :: (showValidationErrorsRun s).2.1 := by
  rw [validateAndSubmit_invalid bs sub s hv hh hs]
  refine ⟨rfl, ?_, ?_, rfl⟩
  · intro m hm
    rw [hm]
    rfl
  · intro hmem
    rcases List.mem_cons.mp hmem with h | h
    · exact Event.noConfusion h
    · exact submitCalled_not_mem_showRun s h

/-- The form of the C1 witness: a single empty email field. -/
def c1Form : FormState :=
  ⟨[⟨"input", some ("email"), false, true, none, "", some ("em"), none,
     false, false⟩],
   true, true, false, true, false, false, false, false, none⟩

/-- Witness for C1: on the concrete invalid form, the call rejects with
exactly the displayed `EMAIL_REQUIRED` message and never invokes the
submit hook. -/
theorem validateAndSubmit_invalid_rejects_witness :
    (validateAndSubmitRun BeforeSubmitB.dflt (SubmitB.resolve JsValue.undef)
        c1Form).2.2 =
      Except.error (JsValue.str (AuthErrors.toMessage AuthError.EMAIL_REQUIRED)) ∧
    Event.submitCalled ∉
      (validateAndSubmitRun BeforeSubmitB.dflt (SubmitB.resolve JsValue.undef)
          c1Form).2.1 := by
  have h := validateAndSubmit_invalid_rejects BeforeSubmitB.dflt
    (SubmitB.resolve JsValue.undef) c1Form (by decide) (by decide) (by decide)
  exact ⟨h.2.1 (AuthErrors.toMessage AuthError.EMAIL_REQUIRED) (by decide),
    h.2.2.1⟩

/-- C5: in the `_submitForm` chain, a `beforeSubmit` that resolves to
`false` skips `submit` but `afterSubmit` still runs (on an undefined
result); and when `beforeSubmit` or `submit` throws or rejects, the
error is displayed via `displayError` (the error-visible flag is set and
the display event carries that same error), the chain rejects with that
same error, and `afterSubmit` is never invoked (nor, for a
`beforeSubmit` failure, is `submit`). -/
theorem submit_chain_behavior (s : FormState) (sub : SubmitB) (e : String) :
    (Event.submitCalled ∉
        (submitFormRun (BeforeSubmitB.retVal true) sub s).2.1 ∧
      Event.afterSubmitCalled JsValue.undef ∈
        (submitFormRun (BeforeSubmitB.retVal true) sub s).2.1) ∧
    ((submitFormRun (BeforeSubmitB.raise e) sub s).2.2 =
        Except.error (JsValue.errObj e) ∧
      Event.displayErrorCalled (JsValue.errObj e) ∈
        (submitFormRun (BeforeSubmitB.raise e) sub s).2.1 ∧
      (∀ r, Event.afterSubmitCalled r ∉
        (submitFormRun (BeforeSubmitB.raise e) sub s).2.1) ∧
      Event.submitCalled ∉ (submitFormRun (BeforeSubmitB.raise e) sub s).2.1 ∧
      (submitFormRun (BeforeSubmitB.raise e) sub s).1.errorVisible = true) ∧
    ((submitFormRun BeforeSubmitB.dflt (SubmitB.raise e) s).2.2 =
        Except.error (JsValue.errObj e) ∧
      Event.displayErrorCalled (JsValue.errObj e) ∈
        (submitFormRun BeforeSubmitB.dflt (SubmitB.raise e) s).2.1 ∧
      (∀ r, Event.afterSubmitCalled r ∉
        (submitFormRun BeforeSubmitB.dflt (SubmitB.raise e) s).2.1) ∧
      (submitFormRun BeforeSubmitB.dflt (SubmitB.raise e) s).1.errorVisible =
        true) := by
  refine ⟨⟨?_, ?_⟩, ⟨?_, ?_, ?_, ?_, ?_⟩, ⟨?_, ?_, ?_, ?_⟩⟩ <;>
    simp [submitFormRun, runSubmitStage, afterSubmitRun, displayErrorS,
      setErrorVisible]

/-- C7: single-flight submission.  A `validateAndSubmit` call made while
a previous submission is still in flight is dropped silently: the state
is unchanged (so no state transition and no second `submit`), no events
are emitted, and the call resolves (with undefined) rather than
erroring.  (Modelled from the spec: the `allowOnlyOneSubmit` decorator
lives outside src/.) -/
theorem single_flight_drop (bs : BeforeSubmitB) (sub : SubmitB)
    (s : FormState) (h : s.isSubmitting = true) :
    validateAndSubmitRun bs sub s = (s, [], Except.ok JsValue.undef) := by
  unfold validateAndSubmitRun
  simp [h]

/-- The form of the C7 witness: a submission is in flight. -/
def c7Form : FormState :=
  ⟨[⟨"input", some ("email"), false, true, none, "a@b.com", some ("em"),
     none, false, false⟩],
   true, true, false, false, true, false, false, false, none⟩

/-- Witness for C7: the concrete in-flight form drops a second call
without any effect. -/
theorem single_flight_drop_witness :
    validateAndSubmitRun BeforeSubmitB.dflt (SubmitB.resolve JsValue.undef)
        c7Form =
      (c7Form, [], Except.ok JsValue.undef) :=
  single_flight_drop BeforeSubmitB.dflt (SubmitB.resolve JsValue.undef)
    c7Form (by decide)

/-- C9: `validateAndSubmit` checks validity before enablement.  On a
valid but disabled, non-halted, idle form it resolves quietly (only the
`submitStart` signal fires; none of `beforeSubmit`, `submit`,
`afterSubmit` or any display happens, and the state is unchanged); on an
invalid form the error-display pass still runs in full — same tooltip
events, error hidden, rejection with the displayed message — regardless
of the enablement flag. -/
theorem validate_before_enablement (bs : BeforeSubmitB) (sub : SubmitB)
    (s : FormState) (hh : s.isHalted = false) (hs : s.isSubmitting = false) :
    (isValid s = true → s.isFormEnabled = false →
      validateAndSubmitRun bs sub s =
        (s, [Event.submitStart], Except.ok JsValue.undef)) ∧
    (isValid s = false →
      validateAndSubmitRun bs sub s =
        (hideErrorS s,
         Event.submitStart :: (showValidationErrorsRun s).2.1,
         Except.error (jsOfMsg (showValidationErrorsMsg s)))) := by
  constructor
  · intro hv he
    have h1 : (setSubmitting s true).isHalted = false := hh
    have h2 : isValid (setSubmitting s true) = true := hv
    have h3 : (setSubmitting s true).isFormEnabled = false := he
    unfold validateAndSubmitRun validateAndSubmitBody
    simp only [hs, h1, h2, h3, Bool.false_eq_true, if_false, Bool.not_true,
      Bool.not_false, if_true, Prod.mk.injEq]
    refine ⟨?_, trivial⟩
    rw [setSubmitting_setSubmitting, setSubmitting_self s hs]
  · intro hv
    exact validateAndSubmit_invalid bs sub s hv hh hs

/-- The form of the C9 witness: valid but disabled. -/
def c9Form : FormState :=
  ⟨[⟨"input", some ("email"), false, true, none, "a@b.com", some ("em"),
     none, false, false⟩],
   true, true, false, false, false, false, false, false, none⟩

/-- Witness for C9: the concrete valid-but-disabled form resolves
quietly without starting the submit chain. -/
theorem validate_before_enablement_witness :
    validateAndSubmitRun BeforeSubmitB.dflt (SubmitB.resolve JsValue.undef)
        c9Form =
      (c9Form, [Event.submitStart], Except.ok JsValue.undef) :=
  (validate_before_enablement BeforeSubmitB.dflt (SubmitB.resolve JsValue.undef)
      c9Form (by decide) (by decide)).1 (by decide) (by decide)

/-- C10: `enableSubmitIfValid` is guarded.  While submitting or halted
it changes nothing at all; otherwise it first hides any visible error
and success message and then sets the enablement flag to exactly the
value of `isValid()`. -/
theorem enableSubmitIfValid_guarded (s : FormState) :
    (s.isSubmitting = true ∨ s.isHalted = true → enableSubmitIfValid s = s) ∧
    (s.isSubmitting = false → s.isHalted = false →
      enableSubmitIfValid s =
        setFormEnabled (hideSuccessS (hideErrorS s)) (isValid s)) := by
  constructor
  · intro h
    unfold enableSubmitIfValid
    rcases h with h | h <;> simp [h]
  · intro h1 h2
    unfold enableSubmitIfValid
    simp only [h1, h2, Bool.or_self, Bool.false_eq_true, if_false]
    have hv : isValid (hideSuccessS (hideErrorS s)) = isValid s := rfl
    rw [hv]
    cases hval : isValid s
    · simp [disableFormS]
    · simp [enableFormS]

/-- The form of the C10 witness: idle, not halted, with a visible error
message and an invalid field. -/
def c10Form : FormState :=
  ⟨[⟨"input", some ("email"), false, true, none, "", some ("em"), none,
     false, false⟩],
   true, true, false, true, false, false, true, true, none⟩

/-- Witness for C10: on the concrete idle form the call hides the error
and success messages and disables the (invalid) form. -/
theorem enableSubmitIfValid_guarded_witness :
    enableSubmitIfValid c10Form =
      setFormEnabled (hideSuccessS (hideErrorS c10Form)) (isValid c10Form) :=
  (enableSubmitIfValid_guarded c10Form).2 (by decide) (by decide)

/-- The default `afterSubmit` never clears the halted flag. -/
lemma afterSubmitRun_preserves_halted (s : FormState) (r : JsValue)
    (h : s.isHalted = true) : (afterSubmitRun s r).1.isHalted = true := by
  show (if resultHalt r then haltS s
        else if ! s.errorVisible then enableFormS s else s).isHalted = true
  split
  · rfl
  · split
    · exact h
    · exact h

/-- The submit-stage tail never clears the halted flag. -/
lemma runSubmitStage_preserves_halted (s : FormState) (rf : Bool)
    (sub : SubmitB) (h : s.isHalted = true) :
    (runSubmitStage s rf sub).1.isHalted = true := by
  unfold runSubmitStage
  split
  · exact afterSubmitRun_preserves_halted s JsValue.undef h
  · cases sub with
    | resolve v => exact afterSubmitRun_preserves_halted s v h
    | raise e => exact h

/-- The whole `_submitForm` chain never clears the halted flag. -/
lemma submitFormRun_preserves_halted (bs : BeforeSubmitB) (sub : SubmitB)
    (s : FormState) (h : s.isHalted = true) :
    (submitFormRun bs sub s).1.isHalted = true := by
  cases bs with
  | dflt => exact runSubmitStage_preserves_halted (disableFormS s) false sub h
  | retVal rf => exact runSubmitStage_preserves_halted s rf sub h
  | raise e => exact h

/-- On a halted form, `validateAndSubmit` resolves with undefined,
changes nothing, and emits at most the `submitStart` signal — no
validation, no display, no submission. -/
lemma validateAndSubmit_halted (bs : BeforeSubmitB) (sub : SubmitB)
    (t : FormState) (ht : t.isHalted = true) :
    (validateAndSubmitRun bs sub t).1 = t ∧
    (validateAndSubmitRun bs sub t).2.2 = Except.ok JsValue.undef ∧
    (validateAndSubmitRun bs sub t).2.1 =
      (if t.isSubmitting = true then ([] : List Event)
       else [Event.submitStart]) := by
  by_cases hts : t.isSubmitting = true
  · simp [validateAndSubmitRun, hts]
  · have hts2 : t.isSubmitting = false := by
      cases htb : t.isSubmitting
      · rfl
      · exact absurd htb hts
    have h1 : (setSubmitting t true).isHalted = true := ht
    unfold validateAndSubmitRun validateAndSubmitBody
    simp only [hts2, Bool.false_eq_true, if_false, h1, if_true]
    refine ⟨?_, trivial, trivial⟩
    rw [setSubmitting_setSubmitting, setSubmitting_self t hts2]

/-- No FormView operation ever clears the halted flag. -/
lemma runOp_preserves_halted (op : Op) (t : FormState)
    (ht : t.isHalted = true) : (runOp op t).isHalted = true := by
  cases op with
  | validateAndSubmitOp bs sub =>
      rw [show runOp (Op.validateAndSubmitOp bs sub) t =
            (validateAndSubmitRun bs sub t).1 from rfl,
        (validateAndSubmit_halted bs sub t ht).1]
      exact ht
  | submitFormOp bs sub => exact submitFormRun_preserves_halted bs sub t ht
  | showValidationErrorsOp =>
      rw [show runOp Op.showValidationErrorsOp t =
            (showValidationErrorsRun t).1 from rfl, showRun_state]
      exact ht
  | enableSubmitIfValidOp =>
      show (enableSubmitIfValid t).isHalted = true
      unfold enableSubmitIfValid
      simp [ht]
  | updateFormValueChangesOp =>
      show ((updateFormValueChanges t).1).isHalted = true
      unfold updateFormValueChanges
      cases hd : detectFormValueChanges t <;> simp only [hd] <;> exact ht
  | enableFormOp => exact ht
  | disableFormOp => exact ht
  | hideErrorOp => exact ht
  | hideSuccessOp => exact ht
  | displayErrorOp => exact ht
  | afterSubmitOp r => exact afterSubmitRun_preserves_halted t r ht
  | haltOp => rfl

/-- C6: on a valid, enabled, non-halted, idle form whose `submit`
resolves with a result carrying a truthy `halt`, the default
`afterSubmit` leaves the controller halted; once halted, every
subsequent `validateAndSubmit` call resolves without validating,
displaying or submitting anything (state unchanged, at most the
`submitStart` signal); and no FormView operation ever clears the halted
flag — `Halted` is terminal for the instance. -/
theorem halt_terminal (s : FormState) (hv : isValid s = true)
    (he : s.isFormEnabled = true) (hh : s.isHalted = false)
    (hs : s.isSubmitting = false) :
    (validateAndSubmitRun BeforeSubmitB.dflt
        (SubmitB.resolve (JsValue.res true)) s).1.isHalted = true ∧
    (∀ bs sub t, t.isHalted = true →
      (validateAndSubmitRun bs sub t).1 = t ∧
      (validateAndSubmitRun bs sub t).2.2 = Except.ok JsValue.undef ∧
      (validateAndSubmitRun bs sub t).2.1 =
        (if t.isSubmitting = true then ([] : List Event)
         else [Event.submitStart])) ∧
    (∀ op t, t.isHalted = true → (runOp op t).isHalted = true) := by
  refine ⟨?_, fun bs sub t ht => validateAndSubmit_halted bs sub t ht,
    fun op t ht => runOp_preserves_halted op t ht⟩
  have h1 : (setSubmitting s true).isHalted = false := hh
  have h2 : isValid (setSubmitting s true) = true := hv
  have h3 : (setSubmitting s true).isFormEnabled = true := he
  unfold validateAndSubmitRun validateAndSubmitBody
  simp only [hs, h1, h2, h3, Bool.false_eq_true, if_false, Bool.not_true,
    Bool.not_false, if_true]
  simp [submitFormRun, runSubmitStage, afterSubmitRun, resultHalt, haltS,
    setHalted, setSubmitting, disableFormS, setFormEnabled]

/-- The form of the C6 witness: a single valid email field, enabled. -/
def c6Form : FormState :=
  ⟨[⟨"input", some ("email"), false, true, none, "a@b.com", some ("em"),
     none, false, false⟩],
   true, true, false, true, false, false, false, false, none⟩

/-- Witness for C6: submitting the concrete valid form with a result
carrying `halt: true` leaves the controller halted. -/
theorem halt_terminal_witness :
    (validateAndSubmitRun BeforeSubmitB.dflt
        (SubmitB.resolve (JsValue.res true)) c6Form).1.isHalted = true :=
  (halt_terminal c6Form (by decide) (by decide) (by decide) (by decide)).1

/-- The property keys of a snapshot object. -/
def keysOf (l : List (String × String)) : List String := l.map Prod.fst

/-- Property assignment either keeps the key set (update) or appends the
new key (insert). -/
lemma keysOf_objSet (l : List (String × String)) (k v : String) :
    keysOf (objSet l k v) =
      if k ∈ keysOf l then keysOf l else keysOf l ++ [k] := by
  induction l with
  | nil => simp [objSet, keysOf]
  | cons kv rest ih =>
      unfold objSet
      by_cases hk : kv.1 = k
      · simp [keysOf, hk]
      · unfold keysOf at ih
        simp only [beq_iff_eq, hk, if_false, keysOf, List.map_cons]
        rw [ih]
        have hk2 : ¬ k = kv.1 := fun h => hk h.symm
        by_cases hm : k ∈ List.map Prod.fst rest
        · simp [hm, List.mem_cons, hk2]
        · simp [hm, List.mem_cons, hk2]

/-- Property assignment preserves key uniqueness. -/
lemma nodup_keysOf_objSet (l : List (String × String)) (k v : String)
    (h : (keysOf l).Nodup) : (keysOf (objSet l k v)).Nodup := by
  rw [keysOf_objSet]
  split
  · exact h
  · next hm => simp [List.nodup_append, h, hm]

/-- The `getFormValues` accumulation loop preserves key uniqueness. -/
lemma nodup_keysOf_foldl (fs : List Field) (acc : List (String × String))
    (h : (keysOf acc).Nodup) :
    (keysOf (fs.foldl formValuesStep acc)).Nodup := by
  induction fs generalizing acc with
  | nil => simpa using h
  | cons f rest ih =>
      rw [List.foldl_cons]
      apply ih
      unfold formValuesStep
      split
      · exact h
      · exact nodup_keysOf_objSet _ _ _ h

/-- Snapshots built by `getFormValues` have unique keys. -/
lemma nodup_keysOf_getFormValues (s : FormState) :
    (keysOf (getFormValues s)).Nodup := by
  unfold getFormValues
  exact nodup_keysOf_foldl _ [] (by simp [keysOf])

/-- Lookup of a stored pair on a unique-key object. -/
lemma objGet_of_mem (l : List (String × String)) (kv : String × String)
    (hn : (keysOf l).Nodup) (hm : kv ∈ l) : objGet l kv.1 = some kv.2 := by
  induction l with
  | nil => simp at hm
  | cons hd rest ih =>
      have hn2 := hn
      unfold keysOf at hn2
      rw [List.map_cons, List.nodup_cons] at hn2
      rcases List.mem_cons.mp hm with h | h
      · subst h
        simp [objGet]
      · have hne : ¬ hd.1 == kv.1 := by
          simp only [beq_iff_eq]
          intro heq
          exact hn2.1 (heq ▸ List.mem_map_of_mem Prod.fst h)
        unfold objGet
        simp only [hne, if_false]
        exact ih hn2.2 h

/-- Deep equality is reflexive on unique-key objects. -/
lemma objEq_refl (l : List (String × String)) (hn : (keysOf l).Nodup) :
    objEq l l = true := by
  unfold objEq
  rw [Bool.and_self, List.all_eq_true]
  intro kv hm
  simp [objGet_of_mem l kv hn hm]

/-- C8: committing the current snapshot as baseline
(`updateFormValueChanges`) and immediately re-running detection
(`detectFormValueChanges`) with unchanged inputs returns null; and
detection returns the new snapshot exactly when it differs by deep
structural comparison from the last-accepted baseline (a still-undefined
baseline counts as different). -/
theorem change_tracking_roundtrip (s : FormState) :
    detectFormValueChanges (updateFormValueChanges s).1 = none ∧
    (∀ n, detectFormValueChanges s = some n ↔
      (n = getFormValues s ∧
        isEqualJs s.previousFormValues (getFormValues s) = false)) := by
  constructor
  · unfold updateFormValueChanges
    cases hd : detectFormValueChanges s with
    | none => simpa using hd
    | some nv =>
        have hnv : nv = getFormValues s := by
          unfold detectFormValueChanges at hd
          split at hd
          · exact (Option.some.injEq _ _ ▸ hd).symm
          · exact Option.noConfusion hd
        simp only []
        unfold detectFormValueChanges
        have hgv : getFormValues (setPrevValues s (some nv)) =
            getFormValues s := rfl
        rw [hgv]
        have hpv : (setPrevValues s (some nv)).previousFormValues =
            some nv := rfl
        rw [hpv]
        have heq : isEqualJs (some nv) (getFormValues s) = true := by
          show objEq nv (getFormValues s) = true
          rw [hnv]
          exact objEq_refl _ (nodup_keysOf_getFormValues s)
        rw [heq]
        simp
  · intro n
    constructor
    · intro h
      unfold detectFormValueChanges at h
      cases hq : isEqualJs s.previousFormValues (getFormValues s)
      · rw [hq] at h
        simp at h
        exact ⟨h.symm, rfl⟩
      · rw [hq] at h
        simp at h
    · rintro ⟨h1, h2⟩
      unfold detectFormValueChanges
      rw [h2]
      simp [h1]

/-- An idle enabled form used to instantiate the C5 chain facts. -/
def c5Form : FormState :=
  ⟨[⟨"input", some ("email"), false, true, none, "a@b.com", some ("em"),
     none, false, false⟩],
   true, true, false, true, false, false, false, false, none⟩

/-- Witness for C5: on the concrete form, a rejecting `beforeSubmit`
makes the chain reject with that same error. -/
theorem submit_chain_behavior_witness :
    (submitFormRun (BeforeSubmitB.raise ("boom"))
        (SubmitB.resolve JsValue.undef) c5Form).2.2 =
      Except.error (JsValue.errObj ("boom")) :=
  (submit_chain_behavior c5Form (SubmitB.resolve JsValue.undef)
      ("boom")).2.1.1

/-- A form with two fields and no committed baseline, used to
instantiate the C8 round trip. -/
def c8Form : FormState :=
  ⟨[⟨"input", some ("text"), false, true, none, "hello", some ("first"),
     none, false, false⟩,
    ⟨"input", some ("email"), false, true, none, "a@b.com", some ("em"),
     none, false, false⟩],
   true, true, false, true, false, false, false, false, none⟩

/-- Witness for C8: committing the concrete form's snapshot and
re-detecting immediately returns null. -/
theorem change_tracking_roundtrip_witness :
    detectFormValueChanges (updateFormValueChanges c8Form).1 = none :=
  (change_tracking_roundtrip c8Form).1

end FxaForm
